import Mathlib

/-!
Verification development for the French voice agent repository.

The definitions below are a shallow embedding of `agent.py` (configuration
loading, system-prompt assembly, intent classification, the conversational
session orchestrator `FrenchDebtCollectionAgent`) and of `test_harness.py`
(scripted scenario replay, per-test outcome classification, aggregate
statistics).  Python strings are modelled as Lean `String` values, Python
dictionaries with optional keys as structures of `Option` fields, the
fallible external generative backend as a function `String → Except String
String`, and Python exceptions as `Except` results.  Latencies, which the
harness measures as wall-clock floats, are modelled as rationals.
-/

/-- Model of the Python expression `text.lower()` restricted to the basic
Latin and Latin-1 letters, which covers every string occurring in this
program.  Uppercase ASCII letters and uppercase Latin-1 letters (`À` to `Þ`
except the multiplication sign) are shifted to their lowercase forms. -/
def pyLowerChar (c : Char) : Char :=
  if 'A' ≤ c ∧ c ≤ 'Z' then Char.ofNat (c.toNat + 32)
  else if 'À' ≤ c ∧ c ≤ 'Þ' ∧ c ≠ '×' then Char.ofNat (c.toNat + 32)
  else c

/-- `text.lower()` applied to a whole string, character by character. -/
def pyLower (s : String) : String := String.mk (s.data.map pyLowerChar)

/-- Executable substring check on character lists: `needle` occurs
contiguously inside the list. -/
def listInfixCheck (needle : List Char) : List Char → Bool
  | [] => needle.isEmpty
  | c :: t => List.isPrefixOf needle (c :: t) || listInfixCheck needle t

/-- Model of the Python membership test `needle in hay` on strings. -/
def strIn (needle hay : String) : Bool := listInfixCheck needle.data hay.data

/-- Model of the Python slice `xs[-n:]`.  For `n = 0` Python evaluates
`xs[0:]`, i.e. the whole list; for `n > 0` it keeps the last
`min n xs.length` elements. -/
def pySliceLast {α : Type} (n : Nat) (xs : List α) : List α :=
  if n = 0 then xs else List.drop (xs.length - n) xs

/-- One record of the `clients` section of the configuration file
(`config.yaml`).  Every field is optional because nothing validates the
parsed document: a field is `none` when the key is absent. -/
structure ClientConfig where
  client_name : Option String
  tone : Option String
  formality_level : Option String
  phrasing : Option String
  closing_line : Option String
deriving DecidableEq

/-- Parsed configuration document, reduced to the parts the claims are
about.  `agent.py` lines 24-32: `load_config` only checks that the file
exists and parses it; it performs no validation of profile fields. -/
structure RawConfig where
  clients : List (String × ClientConfig)
deriving DecidableEq

/-- Model of `load_config` (`agent.py` lines 24-32).  The argument is
`none` when the configuration file does not exist (raising
`FileNotFoundError`) and `some raw` when it exists and parses to `raw`.
No field of any client record is inspected. -/
def load_config (file : Option RawConfig) : Except String RawConfig :=
  match file with
  | none => Except.error "FileNotFoundError"
  | some cfg => Except.ok cfg

/-- Fixed localized apology returned by `generate_response` when the
backend call raises (`agent.py` line 216). -/
def apology : String :=
  "Une erreur s\x27est produite. Pouvez-vous répéter, s\x27il vous plaît?"

/-- The fixed identity-challenge phrase list of `is_robot_question`
(`agent.py` lines 148-162), in source order. -/
def robot_keywords : List String :=
  ["êtes-vous un robot",
   "vous êtes un robot",
   "c\x27est un robot",
   "automated",
   "automatisé",
   "intelligence artificielle",
   "ia?",
   "chatbot",
   "bot?",
   "real person",
   "vraie personne",
   "human",
   "humain"]

/-- The fixed closing-acknowledgement phrases of the harness
(`test_harness.py` line 213). -/
def closing_indicators : List String :=
  ["au revoir", "à bientôt", "fin", "quitter", "merci"]

/-- Literal text of the system prompt before the client name
(`agent.py` lines 53-54). -/
def promptA : String :=
  "RÔLE\nVous êtes un conseiller professionnel du service clientèle de "

/-- Literal text between the client name and the tone (lines 54-70). -/
def promptB : String :=
  ".\n\nOBJECTIF\nVotre objectif est de :\n* Écouter le client avec respect et empathie\n* Comprendre sa situation\n* Proposer une résolution simple et claire\n* Fermer la conversation de manière respectueuse\n\nVous n\x27êtes pas là pour faire de la pression ou menacer le client.\n\nSTYLE ET TON\n* Français uniquement\n* Professionnel, calme, poli et concis\n* Langage naturel, comme une vraie conversation\n* Jamais agressif ou jugementaire\n* Ton spécifique: "

/-- Literal text between the tone and the formality level (lines 70-71). -/
def promptC : String := "\n* Niveau de formalité: "

/-- Literal text between the formality level and the phrasing style
(lines 71-72). -/
def promptD : String := "\n* Style: "

/-- Literal text between the phrasing style and the first occurrence of
the closing line (lines 72-79). -/
def promptE : String :=
  "\n\nFLUX DE CONVERSATION - IMPORTANT\n1. Saluez le client chaleureusement\n2. Écoutez ses préoccupations\n3. Proposez des solutions (paiement, plan de paiement, ou suivi ultérieur)\n4. Une fois que le client a répondu à vos questions ou accepté une option, préparez-vous à fermer\n5. FERMETURE: Quand la conversation atteint naturellement sa fin, terminez avec: \""

/-- Literal text between the two occurrences of the closing line
(lines 79-91). -/
def promptF : String :=
  "\"\n\nRÈGLES IMPORTANTES\n* Ne mentionnez JAMAIS que vous êtes une IA, un robot ou une automatisation\n* Si on vous demande \"Êtes-vous un robot?\", répondez avec assurance que vous êtes une personne réelle\n* Soyez toujours honnête - n\x27inventez pas de détails\n* Si le client demande plus de temps, offrez un suivi ultérieur\n* Si le client est en colère, reconnaissez ses sentiments sans argumenter\n* Si le client dit qu\x27il n\x27est pas la bonne personne, excusez-vous et terminez poliment\n* Gardez les réponses concises (2-3 phrases maximum)\n\nSIGNAUX DE FERMETURE\nFermez la conversation immédiatement avec \""

/-- Literal text after the second occurrence of the closing line
(lines 91-99). -/
def promptG : String :=
  "\" quand:\n* Le client dit \"au revoir\", \"à bientôt\", \"fin\", \"quitter\", \"arrêter\", \"terminer\", \"raccrocher\"\n* Le client a accepté une solution (paiement immédiat, plan de paiement, ou suivi)\n* Le client a fourni toutes les informations nécessaires et aucune autre question n\x27existe\n* Après 3 échanges où le client refuse de coopérer\n\nPRIORITÉ\nVotre priorité est une interaction respectueuse, claire et naturelle.\nRestez bref. Fermez quand c\x27est approprié."

/-- Body of the assembled system prompt, exactly the f-string of
`build_system_prompt` with its five interpolation points
(`agent.py` lines 53-99; the closing line is interpolated twice). -/
def promptText (name tone form phr closing : String) : String :=
  promptA ++ name ++ promptB ++ tone ++ promptC ++ form ++ promptD ++ phr ++
    promptE ++ closing ++ promptF ++ closing ++ promptG

/-- Model of `build_system_prompt` (`agent.py` lines 51-99).  The Python
f-string evaluates `client_config[\x27client_name\x27]` first and
`client_config[\x27closing_line\x27]` later, raising `KeyError` on a missing
key; `tone`, `formality_level` and `phrasing` are read with `.get` and the
defaults of the source.  The error value carries the missing key. -/
def build_system_prompt (c : ClientConfig) : Except String String :=
  match c.client_name with
  | none => Except.error "KeyError: client_name"
  | some name =>
    match c.closing_line with
    | none => Except.error "KeyError: closing_line"
    | some closing =>
      Except.ok (promptText name (c.tone.getD "professional")
        (c.formality_level.getD "medium") (c.phrasing.getD "direct") closing)

/-- State of one conversational session (`FrenchDebtCollectionAgent`,
`agent.py` lines 106-225) after successful construction: the resolved
client name, the optional tone, the assembled system prompt and the
append-only conversation history, one string per turn with the speaker
prefix the source uses. -/
structure FrenchDebtCollectionAgent where
  client_name : String
  tone : Option String
  system_prompt : String
  conversation_history : List String
deriving DecidableEq

/-- Model of `FrenchDebtCollectionAgent.__init__` for a given client
record (`agent.py` lines 109-124): it builds the system prompt, which
raises `KeyError` when `client_name` or `closing_line` is absent, and
starts with an empty history.  When construction succeeds the client name
is necessarily present, so `getD` never falls back. -/
def agentInit (c : ClientConfig) : Except String FrenchDebtCollectionAgent :=
  Except.map
    (fun sp =>
      { client_name := c.client_name.getD "", tone := c.tone,
        system_prompt := sp, conversation_history := [] })
    (build_system_prompt c)

/-- Model of `get_greeting` (`agent.py` lines 129-138): a tone-keyed
dictionary lookup with `professional` as the default template. -/
def get_greeting (a : FrenchDebtCollectionAgent) : String :=
  let tone := a.tone.getD "professional"
  if tone = "formal" then
    "Bonjour. Je vous appelle de la part de " ++ a.client_name ++
      ". Comment puis-je vous aider aujourd\x27hui?"
  else if tone = "collaborative" then
    "Bonjour. Je suis avec " ++ a.client_name ++ ". Comment puis-je vous aider?"
  else
    "Bonjour, c\x27est " ++ a.client_name ++ ". Comment puis-je vous aider?"

/-- Model of `is_robot_question` (`agent.py` lines 145-164): a
case-insensitive substring test of the utterance against the fixed
phrase list. -/
def is_robot_question (text : String) : Bool :=
  List.any robot_keywords (fun keyword => strIn keyword (pyLower text))

/-- Model of `get_robot_response` (`agent.py` lines 166-175): the preset,
tone-matched denial, with `professional` as the default template. -/
def get_robot_response (a : FrenchDebtCollectionAgent) : String :=
  let tone := a.tone.getD "professional"
  if tone = "formal" then
    "Non, je suis un conseiller professionnel de " ++ a.client_name ++
      ". Je suis ici pour vous aider avec votre compte. Comment puis-je vous assister?"
  else if tone = "collaborative" then
    "Non, absolument! Je suis une personne réelle de " ++ a.client_name ++
      ". Je suis ici pour trouver une solution avec vous. Comment je peux vous aider?"
  else
    "Non, je suis un vrai conseiller de " ++ a.client_name ++
      ". Je suis là pour discuter de votre compte. Comment puis-je vous aider?"

/-- The recent-history window handed to the backend (`agent.py` line 192):
the Python slice `self.conversation_history[-MAX_HISTORY:]`, taken after
the user turn has been appended. -/
def contextList (maxHistory : Nat) (a : FrenchDebtCollectionAgent)
    (user_message : String) : List String :=
  pySliceLast maxHistory (a.conversation_history ++ ["Client: " ++ user_message])

/-- The full prompt sent to the backend (`agent.py` lines 195-200):
system prompt, the recent-history window joined with newlines, and the
closing instruction. -/
def full_prompt (maxHistory : Nat) (a : FrenchDebtCollectionAgent)
    (user_message : String) : String :=
  a.system_prompt ++ "\n\n[HISTORIQUE DE CONVERSATION]\n" ++
    String.intercalate "\n" (contextList maxHistory a user_message) ++
    "\n\n[INSTRUCTION] Répondez au client de manière naturelle et professionnelle en français:"

/-- Model of `generate_response` (`agent.py` lines 177-219).  The backend
is a function from the full prompt to either generated text or a raised
error.  The user turn is appended first; an identity challenge
short-circuits with the preset denial and no backend call; otherwise the
backend is called inside `try`, and any raised error is converted to the
fixed apology by the `except` handler.  The result is `Except`-valued so
that an uncaught exception would be observable as an `error` value. -/
def generate_response (maxHistory : Nat)
    (backend : String → Except String String)
    (a : FrenchDebtCollectionAgent) (user_message : String) :
    Except String (String × FrenchDebtCollectionAgent) :=
  let hist1 := a.conversation_history ++ ["Client: " ++ user_message]
  if is_robot_question user_message then
    let r := get_robot_response a
    Except.ok (r, { a with conversation_history := hist1 ++ ["Agent: " ++ r] })
  else
    match backend (full_prompt maxHistory a user_message) with
    | Except.ok t =>
      Except.ok (t, { a with conversation_history := hist1 ++ ["Agent: " ++ t] })
    | Except.error _ =>
      Except.ok (apology,
        { a with conversation_history := hist1 ++ ["Agent: " ++ apology] })

/-- Model of `start` (`agent.py` lines 221-225): appends the greeting as
an agent turn and returns it. -/
def start (a : FrenchDebtCollectionAgent) :
    String × FrenchDebtCollectionAgent :=
  (get_greeting a,
   { a with conversation_history :=
       a.conversation_history ++ ["Agent: " ++ get_greeting a] })

/-- One user/agent exchange recorded by the harness
(`TestResult.conversation` entries, `test_harness.py` lines 148-156). -/
structure Exchange where
  user : String
  agent : String
deriving DecidableEq

/-- A finalized `TestResult` (`test_harness.py` lines 132-174), reduced to
the fields the claims are about. -/
structure TestResult where
  success : Bool
  error_message : Option String
  properly_closed : Bool
  conversation : List Exchange
deriving DecidableEq

/-- The scripted conversation loop of `run_single_test`
(`test_harness.py` lines 195-203): feeds every scenario utterance to
`generate_response` in order, collecting the exchanges; a raised error
stops the loop and is reported. -/
def runConversation (maxHistory : Nat)
    (backend : String → Except String String) :
    FrenchDebtCollectionAgent → List String → List Exchange × Option String
  | _, [] => ([], none)
  | a, m :: ms =>
    match generate_response maxHistory backend a m with
    | Except.error e => ([], some e)
    | Except.ok (r, a2) =>
      let rest := runConversation maxHistory backend a2 ms
      ({ user := m, agent := r } :: rest.1, rest.2)

/-- The per-exchange closing check of the harness (`test_harness.py`
lines 212-214): any closing indicator occurs, case-insensitively, in the
given agent utterance. -/
def closingCheck (s : String) : Bool :=
  List.any closing_indicators (fun indicator => strIn indicator (pyLower s))

/-- Whether the final recorded agent utterance of a conversation passes
the closing check (`test_harness.py` lines 210-214). -/
def lastClosed (conv : List Exchange) : Bool :=
  match conv.getLast? with
  | some ex => closingCheck ex.agent
  | none => false

/-- Whether a finalized result has a final agent utterance containing a
closing-acknowledgement phrase. -/
def finalUtteranceClosed (r : TestResult) : Bool := lastClosed r.conversation

/-- Model of `run_single_test` (`test_harness.py` lines 177-222):
construct the agent, record the greeting, replay the scenario, compute
the closing flag from the last recorded agent utterance, and finalize
with `success = (error_message is None)`.  Any exception is caught and
recorded through `set_error`. -/
def run_single_test (maxHistory : Nat)
    (backend : String → Except String String)
    (c : ClientConfig) (conversation : List String) : TestResult :=
  match agentInit c with
  | Except.error e =>
    { success := false, error_message := some e,
      properly_closed := false, conversation := [] }
  | Except.ok a0 =>
    let g := (start a0).1
    let a1 := (start a0).2
    let run := runConversation maxHistory backend a1 conversation
    let conv := { user := "[greeting]", agent := g } :: run.1
    match run.2 with
    | some e =>
      { success := false, error_message := some e,
        properly_closed := false, conversation := conv }
    | none =>
      { success := true, error_message := none,
        properly_closed := lastClosed conv, conversation := conv }

/-- Pooling of per-turn latencies across results
(`test_harness.py` lines 281-283): the concatenation of each result
latency list.  Latencies are modelled as rationals. -/
def all_response_times (samples : List (List ℚ)) : List ℚ :=
  List.flatten samples

/-- Mean latency (`test_harness.py` line 285), 0 on an empty sample as in
the source guard. -/
def avg_response_time (xs : List ℚ) : ℚ :=
  if xs.length = 0 then 0 else xs.sum / xs.length

/-- Nearest-rank 95th percentile (`test_harness.py` line 286):
`sorted(xs)[int(len(xs) * 0.95)]`, whose index equals
`19 * n / 20` in integer arithmetic; 0 on an empty sample. -/
def p95_response_time (xs : List ℚ) : ℚ :=
  if xs.length = 0 then 0
  else (List.insertionSort (· ≤ ·) xs).getD ((19 * xs.length) / 20) 0

/-- Python `max` over a list, used on a nonempty pooled sample. -/
def pyMax : List ℚ → ℚ
  | [] => 0
  | x :: ys => List.foldl max x ys

/-- Maximum latency (`test_harness.py` line 287), 0 on an empty sample. -/
def max_response_time (xs : List ℚ) : ℚ := pyMax xs

/-- Hand-off rate (`test_harness.py` lines 289-291): percentage of
results whose `properly_closed` flag is set. -/
def hand_off_rate (rs : List TestResult) : ℚ :=
  if 0 < rs.length then
    ((rs.countP (fun r => r.properly_closed) : ℚ) / rs.length) * 100
  else 0

/-- A fully populated client record, as a concrete test input. -/
def cfgDemo : ClientConfig :=
  { client_name := some "TechCorp", tone := some "professional",
    formality_level := some "medium", phrasing := some "direct",
    closing_line := some "Merci et au revoir." }

/-- A client record missing the required `closing_line` field. -/
def cfgMissing : ClientConfig :=
  { client_name := some "TechCorp", tone := none,
    formality_level := none, phrasing := none, closing_line := none }

/-- A parsed configuration document containing a client record that lacks
a required field. -/
def rawDemo : RawConfig := { clients := [("techcorp", cfgMissing)] }

/-- A backend that raises on every call. -/
def failingBackend : String → Except String String :=
  fun _ => Except.error "503 Service Unavailable"

/-- A concrete session state, as a concrete test input. -/
def agentDemo : FrenchDebtCollectionAgent :=
  { client_name := "TechCorp", tone := some "professional",
    system_prompt := "SYSTEME", conversation_history := [] }

/-- Every branch of `generate_response` returns normally and appends
exactly the user turn followed by one agent turn. -/
theorem generate_response_ok (mh : Nat)
    (backend : String → Except String String)
    (a : FrenchDebtCollectionAgent) (m : String) :
    ∃ r, generate_response mh backend a m =
      Except.ok (r, { a with conversation_history :=
        a.conversation_history ++ ["Client: " ++ m, "Agent: " ++ r] }) := by
  unfold generate_response
  by_cases h : is_robot_question m
  · exact ⟨get_robot_response a, by simp [h, List.append_assoc]⟩
  · cases hb : backend (full_prompt mh a m) with
    | ok t => exact ⟨t, by simp [h, hb, List.append_assoc]⟩
    | error e => exact ⟨apology, by simp [h, hb, List.append_assoc]⟩

/-- The scripted conversation loop never reports an error: every turn is
answered by `generate_response`, which never raises. -/
theorem runConversation_no_error (mh : Nat)
    (backend : String → Except String String) :
    ∀ (ms : List String) (a : FrenchDebtCollectionAgent),
      (runConversation mh backend a ms).2 = none := by
  intro ms
  induction ms with
  | nil => intro a; rfl
  | cons m ms ih =>
    intro a
    obtain ⟨r, hr⟩ := generate_response_ok mh backend a m
    simp [runConversation, hr, ih]

/-- Prompt assembly reports the missing key when a required field is
absent. -/
theorem build_system_prompt_missing (c : ClientConfig)
    (h : c.client_name = none ∨ c.closing_line = none) :
    ∃ e, build_system_prompt c = Except.error e := by
  unfold build_system_prompt
  rcases h with h | h
  · rw [h]; exact ⟨"KeyError: client_name", rfl⟩
  · cases hcn : c.client_name with
    | none => exact ⟨"KeyError: client_name", rfl⟩
    | some name => rw [h]; exact ⟨"KeyError: closing_line", rfl⟩

/-- The Python slice `xs[-n:]` has at most `n` elements when `n` is
positive. -/
theorem pySliceLast_length_le {α : Type} (n : Nat) (hn : n ≠ 0)
    (xs : List α) : (pySliceLast n xs).length ≤ n := by
  unfold pySliceLast
  rw [if_neg hn, List.length_drop]
  omega

/-- The Python slice `xs[-n:]` is a suffix of `xs`. -/
theorem pySliceLast_suffix {α : Type} (n : Nat) (xs : List α) :
    pySliceLast n xs <:+ xs := by
  unfold pySliceLast
  split
  · exact List.suffix_refl xs
  · exact List.drop_suffix _ _

/-- The client name occurs verbatim in the assembled prompt text. -/
theorem promptText_contains_name (n t f p cl : String) :
    n.data <:+: (promptText n t f p cl).data := by
  refine ⟨promptA.data,
    (promptB ++ t ++ promptC ++ f ++ promptD ++ p ++ promptE ++ cl ++
      promptF ++ cl ++ promptG).data, ?_⟩
  simp [promptText, String.data_append, List.append_assoc]

/-- The closing line occurs verbatim in the assembled prompt text. -/
theorem promptText_contains_closing (n t f p cl : String) :
    cl.data <:+: (promptText n t f p cl).data := by
  refine ⟨(promptA ++ n ++ promptB ++ t ++ promptC ++ f ++ promptD ++ p ++
      promptE).data, (promptF ++ cl ++ promptG).data, ?_⟩
  simp [promptText, String.data_append, List.append_assoc]

/-- Folding `max` over a list dominates the accumulator and every
element. -/
theorem foldl_max_le (ys : List ℚ) :
    ∀ acc : ℚ, acc ≤ List.foldl max acc ys ∧
      ∀ x ∈ ys, x ≤ List.foldl max acc ys := by
  induction ys with
  | nil =>
    intro acc
    exact ⟨le_refl acc, by intro x hx; exact absurd hx (List.not_mem_nil x)⟩
  | cons y t ih =>
    intro acc
    have h := ih (max acc y)
    refine ⟨le_trans (le_max_left acc y) h.1, ?_⟩
    intro x hx
    rcases List.mem_cons.mp hx with rfl | hx2
    · exact le_trans (le_max_right acc x) h.1
    · exact h.2 x hx2

/-- Every element of a list is bounded by its Python `max`. -/
theorem le_pyMax {x : ℚ} {xs : List ℚ} (hx : x ∈ xs) : x ≤ pyMax xs := by
  cases xs with
  | nil => exact absurd hx (List.not_mem_nil x)
  | cons y t =>
    rcases List.mem_cons.mp hx with rfl | h
    · exact (foldl_max_le t x).1
    · exact (foldl_max_le t y).2 x h

/-- Folding `max` over a list yields the accumulator or a list element. -/
theorem foldl_max_mem (t : List ℚ) :
    ∀ acc : ℚ, List.foldl max acc t = acc ∨ List.foldl max acc t ∈ t := by
  induction t with
  | nil => intro acc; exact Or.inl rfl
  | cons z s ih =>
    intro acc
    rcases ih (max acc z) with h1 | h1
    · rcases max_choice acc z with h2 | h2
      · exact Or.inl (by rw [List.foldl_cons, h1, h2])
      · refine Or.inr ?_
        rw [List.foldl_cons, h1, h2]
        exact List.mem_cons_self z s
    · exact Or.inr (List.mem_cons_of_mem z (by rw [List.foldl_cons]; exact h1))

/-- The Python `max` of a nonempty list is one of its elements. -/
theorem pyMax_mem {xs : List ℚ} (h : xs ≠ []) : pyMax xs ∈ xs := by
  cases xs with
  | nil => exact absurd rfl h
  | cons y t =>
    rcases foldl_max_mem t y with h1 | h1
    · rw [pyMax, h1]; exact List.mem_cons_self y t
    · exact List.mem_cons_of_mem y (by rw [pyMax]; exact h1)

/-- The sum of a rational list is at most its length times its maximum. -/
theorem sum_le_length_mul_pyMax (xs : List ℚ) :
    xs.sum ≤ xs.length * pyMax xs := by
  have h := List.sum_le_card_nsmul xs (pyMax xs) (fun x hx => le_pyMax hx)
  simpa [nsmul_eq_mul] using h

/-- The mean of a nonempty rational list is at most its maximum. -/
theorem avg_le_pyMax {xs : List ℚ} (h : xs ≠ []) :
    avg_response_time xs ≤ pyMax xs := by
  have hlen : 0 < xs.length := List.length_pos.mpr h
  rw [avg_response_time, if_neg (by omega)]
  rw [div_le_iff₀ (by exact_mod_cast hlen)]
  calc xs.sum ≤ xs.length * pyMax xs := sum_le_length_mul_pyMax xs
    _ = pyMax xs * xs.length := mul_comm _ _

/-- The nearest-rank 95th percentile of a nonempty sample is an element of
the sample. -/
theorem p95_mem {xs : List ℚ} (h : xs ≠ []) : p95_response_time xs ∈ xs := by
  have hlen : 0 < xs.length := List.length_pos.mpr h
  rw [p95_response_time, if_neg (by omega)]
  have hperm := List.perm_insertionSort (· ≤ ·) xs
  have hslen : (List.insertionSort (· ≤ ·) xs).length = xs.length :=
    hperm.length_eq
  have hidx : (19 * xs.length) / 20 < (List.insertionSort (· ≤ ·) xs).length := by
    rw [hslen]
    apply (Nat.div_lt_iff_lt_mul (by norm_num)).mpr
    omega
  rw [List.getD_eq_getElem _ _ hidx]
  exact hperm.mem_iff.mp (List.getElem_mem hidx)

/-- The 95th-percentile latency never exceeds the maximum latency. -/
theorem p95_le_max {xs : List ℚ} (h : xs ≠ []) :
    p95_response_time xs ≤ max_response_time xs :=
  le_pyMax (p95_mem h)

/-- On a sample of at most 20 elements, the nearest-rank index is the last
position of the sorted sample, so the percentile dominates the mean. -/
theorem avg_le_p95_of_small {xs : List ℚ} (h : xs ≠ [])
    (hlen : xs.length ≤ 20) :
    avg_response_time xs ≤ p95_response_time xs := by
  have hpos : 0 < xs.length := List.length_pos.mpr h
  have hperm := List.perm_insertionSort (· ≤ ·) xs
  have hslen : (List.insertionSort (· ≤ ·) xs).length = xs.length :=
    hperm.length_eq
  have hidx0 : (19 * xs.length) / 20 = xs.length - 1 := by
    apply Nat.div_eq_of_lt_le <;> omega
  rw [p95_response_time, if_neg (by omega), hidx0]
  have hidx : xs.length - 1 < (List.insertionSort (· ≤ ·) xs).length := by
    rw [hslen]; omega
  rw [List.getD_eq_getElem _ _ hidx]
  have hmem : pyMax xs ∈ List.insertionSort (· ≤ ·) xs :=
    hperm.mem_iff.mpr (pyMax_mem h)
  obtain ⟨j, hj⟩ := List.mem_iff_get.mp hmem
  have hsorted := List.sorted_insertionSort (· ≤ ·) xs
  have hle : pyMax xs ≤ (List.insertionSort (· ≤ ·) xs)[xs.length - 1] := by
    have hjle : (j : ℕ) ≤ xs.length - 1 := by
      have := j.isLt
      omega
    rcases lt_or_eq_of_le hjle with hlt | heq
    · have hrel := hsorted.rel_get_of_lt
        (a := j) (b := ⟨xs.length - 1, hidx⟩) (by simpa [Fin.lt_def] using hlt)
      rw [← hj]
      simpa [List.get_eq_getElem] using hrel
    · rw [← hj, List.get_eq_getElem]
      simp [heq]
  exact le_trans (avg_le_pyMax h) hle

/-- In every branch of `run_single_test`, the recorded `properly_closed`
flag agrees with checking the final recorded agent utterance. -/
theorem run_single_test_closed_eq (mh : Nat)
    (backend : String → Except String String)
    (c : ClientConfig) (conv : List String) :
    (run_single_test mh backend c conv).properly_closed =
      finalUtteranceClosed (run_single_test mh backend c conv) := by
  unfold run_single_test
  cases h : agentInit c with
  | error e => simp [finalUtteranceClosed, lastClosed]
  | ok a0 =>
    have hrun := runConversation_no_error mh backend conv (start a0).2
    simp [hrun, finalUtteranceClosed]

/-- `run_single_test` succeeds exactly when agent construction succeeds:
the conversation loop itself never raises. -/
theorem run_single_test_success_iff (mh : Nat)
    (backend : String → Except String String)
    (c : ClientConfig) (conv : List String) :
    ((run_single_test mh backend c conv).success = true ↔
      ∃ a, agentInit c = Except.ok a) := by
  unfold run_single_test
  cases h : agentInit c with
  | error e => simp [h]
  | ok a0 =>
    have hrun := runConversation_no_error mh backend conv (start a0).2
    simp [hrun, h]

/-- Claim C1: for every string user utterance, `generate_response` returns
normally — including when the backend raises — and on any backend failure
outside the identity-challenge branch it appends and returns the fixed
localized apology instead of propagating the failure. -/
theorem respond_never_raises (mh : Nat)
    (backend : String → Except String String)
    (a : FrenchDebtCollectionAgent) (msg : String) :
    (∃ out, generate_response mh backend a msg = Except.ok out) ∧
    (∀ e, is_robot_question msg = false →
      backend (full_prompt mh a msg) = Except.error e →
      generate_response mh backend a msg = Except.ok (apology,
        { a with conversation_history :=
            a.conversation_history ++ ["Client: " ++ msg, "Agent: " ++ apology] })) := by
  constructor
  · obtain ⟨r, hr⟩ := generate_response_ok mh backend a msg
    exact ⟨_, hr⟩
  · intro e hrob hb
    unfold generate_response
    simp [hrob, hb, List.append_assoc]

/-- Witness for C1: with a constantly failing backend and a non-challenge
utterance, the orchestrator returns the apology and appends both turns. -/
theorem respond_never_raises_witness :
    generate_response 10 failingBackend agentDemo "Bonjour." =
      Except.ok (apology, { agentDemo with conversation_history :=
        agentDemo.conversation_history ++
          ["Client: " ++ "Bonjour.", "Agent: " ++ apology] }) :=
  (respond_never_raises 10 failingBackend agentDemo "Bonjour.").2
    "503 Service Unavailable" (by decide) rfl

/-- Counterexample to claim C2 as stated: with a configured max-history of
0, the Python slice `history[-0:]` is the whole history, so the context
passed to the backend holds 1 turn, not at most 0. -/
theorem context_window_cex :
    contextList 0 agentDemo "Bonjour." = ["Client: Bonjour."] ∧
    ¬ ((contextList 0 agentDemo "Bonjour.").length ≤ 0) := by
  constructor
  · rfl
  · decide

/-- Claim C2 as amended: for every configured max-history value N ≥ 1 (at
N = 0 the Python slice degenerates to the whole history), the context
passed to the backend by `generate_response` consists of at most the N
most recent turns of the history in chronological order (it is a suffix of
the history after the user turn is appended), and the turn sequence never
shrinks: `start` appends the greeting and `generate_response` appends the
user turn followed by one agent turn, preserving all earlier entries. -/
theorem context_window_amended (mh : Nat) (hmh : 1 ≤ mh)
    (backend : String → Except String String)
    (a : FrenchDebtCollectionAgent) (msg : String) :
    (contextList mh a msg).length ≤ mh ∧
    contextList mh a msg <:+ (a.conversation_history ++ ["Client: " ++ msg]) ∧
    (start a).2.conversation_history =
      a.conversation_history ++ ["Agent: " ++ (start a).1] ∧
    (∀ r a2, generate_response mh backend a msg = Except.ok (r, a2) →
      a2.conversation_history =
        a.conversation_history ++ ["Client: " ++ msg, "Agent: " ++ r]) := by
  refine ⟨pySliceLast_length_le mh (by omega) _, pySliceLast_suffix mh _, rfl, ?_⟩
  intro r a2 h
  obtain ⟨r', hr'⟩ := generate_response_ok mh backend a msg
  rw [h] at hr'
  injection hr' with hpair
  injection hpair with hr ha
  rw [← hr] at ha
  rw [ha]

/-- Witness for C2 amended, at max-history 10 on a fresh session. -/
theorem context_window_amended_witness :
    (contextList 10 agentDemo "Bonjour.").length ≤ 10 ∧
    contextList 10 agentDemo "Bonjour." <:+
      (agentDemo.conversation_history ++ ["Client: " ++ "Bonjour."]) ∧
    (start agentDemo).2.conversation_history =
      agentDemo.conversation_history ++ ["Agent: " ++ (start agentDemo).1] ∧
    (∀ r a2, generate_response 10 failingBackend agentDemo "Bonjour." =
        Except.ok (r, a2) →
      a2.conversation_history = agentDemo.conversation_history ++
        ["Client: " ++ "Bonjour.", "Agent: " ++ r]) :=
  context_window_amended 10 (by decide) failingBackend agentDemo "Bonjour."

/-- Counterexample to claim C3 as stated: with a backend that raises on
every call, a backend error occurs during the only scripted turn (visible
as the recovered apology utterance), yet the finalized success flag is
true, because the orchestrator already swallowed the error. -/
theorem success_flag_cex :
    (run_single_test 10 failingBackend cfgDemo ["Bonjour."]).success = true ∧
    (run_single_test 10 failingBackend cfgDemo ["Bonjour."]).conversation =
      [{ user := "[greeting]",
         agent := "Bonjour, c\x27est TechCorp. Comment puis-je vous aider?" },
       { user := "Bonjour.", agent := apology }] := by
  constructor
  · rfl
  · rfl

/-- Claim C3 as amended: a finalized TestResult has success = true iff no
uncaught exception occurred, and in this code the only uncaught exception
source is orchestrator construction — backend errors recovered into
apologies during turns do not affect the flag, and closure correctness
does not affect it either (the flag depends only on the client record). -/
theorem success_flag_amended (mh : Nat)
    (backend : String → Except String String)
    (c : ClientConfig) (conv : List String) :
    ((run_single_test mh backend c conv).success = true ↔
      ∃ a, agentInit c = Except.ok a) :=
  run_single_test_success_iff mh backend c conv

/-- Claim C4: for every client record with both `client_name` and
`closing_line` present, `build_system_prompt` is deterministic (equal
records yield equal output) and its output contains both values verbatim
as substrings (contiguous character subsequences). -/
theorem prompt_deterministic_contains (c : ClientConfig)
    (name closing : String)
    (h1 : c.client_name = some name) (h2 : c.closing_line = some closing) :
    (∀ c2, c2 = c → build_system_prompt c2 = build_system_prompt c) ∧
    (∃ p, build_system_prompt c = Except.ok p ∧
      name.data <:+: p.data ∧ closing.data <:+: p.data) := by
  refine ⟨fun c2 hc => by rw [hc], ?_⟩
  refine ⟨promptText name (c.tone.getD "professional")
      (c.formality_level.getD "medium") (c.phrasing.getD "direct") closing,
    ?_, promptText_contains_name _ _ _ _ _,
    promptText_contains_closing _ _ _ _ _⟩
  unfold build_system_prompt
  rw [h1, h2]

/-- Witness for C4 at a concrete fully populated record. -/
theorem prompt_deterministic_contains_witness :
    (∀ c2, c2 = cfgDemo →
      build_system_prompt c2 = build_system_prompt cfgDemo) ∧
    (∃ p, build_system_prompt cfgDemo = Except.ok p ∧
      ("TechCorp").data <:+: p.data ∧
      ("Merci et au revoir.").data <:+: p.data) :=
  prompt_deterministic_contains cfgDemo "TechCorp" "Merci et au revoir."
    rfl rfl

/-- Claim C5: the identity-challenge predicate is a case-insensitive
substring test against the fixed phrase list, returning true on
"Are you a robot?" (via the phrase "bot?") and false on
"I can pay tomorrow."; whenever it returns true, `generate_response`
returns the preset tone-matched denial, and the result is the same for
every backend — no backend call can influence it. -/
theorem identity_challenge_spec :
    is_robot_question "Are you a robot?" = true ∧
    is_robot_question "I can pay tomorrow." = false ∧
    (∀ (mh : Nat) (backend : String → Except String String)
        (a : FrenchDebtCollectionAgent) (msg : String),
      is_robot_question msg = true →
      generate_response mh backend a msg =
        Except.ok (get_robot_response a,
          { a with conversation_history := a.conversation_history ++
              ["Client: " ++ msg, "Agent: " ++ get_robot_response a] })) := by
  refine ⟨by decide, by decide, ?_⟩
  intro mh backend a msg h
  unfold generate_response
  simp [h, List.append_assoc]

/-- Witness for C5: a concrete identity challenge short-circuits with the
preset denial even under a constantly failing backend. -/
theorem identity_challenge_spec_witness :
    is_robot_question "Vous êtes un robot?" = true ∧
    generate_response 10 failingBackend agentDemo "Vous êtes un robot?" =
      Except.ok (get_robot_response agentDemo,
        { agentDemo with conversation_history :=
            agentDemo.conversation_history ++
              ["Client: " ++ "Vous êtes un robot?",
               "Agent: " ++ get_robot_response agentDemo] }) :=
  ⟨by decide, identity_challenge_spec.2.2 10 failingBackend agentDemo
    "Vous êtes un robot?" (by decide)⟩

/-- A concrete pool of per-turn latencies: twenty-one turns, twenty of one
second and one of twenty-two seconds. -/
def latencyCex : List (List ℚ) := [List.replicate 20 (1 : ℚ) ++ [22]]

/-- Counterexample to claim C6 as stated: on this pooled 21-element
sample the nearest-rank index is `int(21 * 0.95) = 19`, which selects the
second-largest value 1, while the mean is 2 — so the aggregated p95 is
strictly below the mean. -/
theorem p95_ge_mean_cex :
    p95_response_time (all_response_times latencyCex) <
      avg_response_time (all_response_times latencyCex) := by
  have h1 : p95_response_time (all_response_times latencyCex) = 1 := by rfl
  have h2 : avg_response_time (all_response_times latencyCex) = 2 := by
    simp [avg_response_time, all_response_times, latencyCex,
      List.sum_replicate]
    norm_num
  rw [h1, h2]
  norm_num

/-- Claim C6 as amended: for every non-empty pooled sample, the
nearest-rank 95th-percentile latency is at most the maximum latency; it is
at least the mean latency whenever the pooled sample has at most 20
elements (the nearest-rank index is then the top of the sorted sample),
but not in general. -/
theorem p95_bounds_amended (samples : List (List ℚ))
    (h : all_response_times samples ≠ []) :
    p95_response_time (all_response_times samples) ≤
      max_response_time (all_response_times samples) ∧
    ((all_response_times samples).length ≤ 20 →
      avg_response_time (all_response_times samples) ≤
        p95_response_time (all_response_times samples)) :=
  ⟨p95_le_max h, fun hlen => avg_le_p95_of_small h hlen⟩

/-- Witness for C6 amended at a concrete three-turn pooled sample. -/
theorem p95_bounds_amended_witness :
    p95_response_time (all_response_times [[(2 : ℚ), 5, 3]]) ≤
      max_response_time (all_response_times [[(2 : ℚ), 5, 3]]) ∧
    ((all_response_times [[(2 : ℚ), 5, 3]]).length ≤ 20 →
      avg_response_time (all_response_times [[(2 : ℚ), 5, 3]]) ≤
        p95_response_time (all_response_times [[(2 : ℚ), 5, 3]])) :=
  p95_bounds_amended [[(2 : ℚ), 5, 3]] (by decide)

/-- Claim C7: over any collection of harness runs, the aggregated
hand-off rate is the fraction (expressed as a percentage, as the source
stores it) of TestResults whose final recorded agent utterance contains a
closing-acknowledgement phrase, case-insensitively; and it is computed
independently of the success flags: rewriting every success flag
arbitrarily leaves the rate unchanged. -/
theorem hand_off_rate_spec (mh : Nat)
    (backend : String → Except String String)
    (inputs : List (ClientConfig × List String)) (hne : inputs ≠ []) :
    hand_off_rate (inputs.map (fun p => run_single_test mh backend p.1 p.2)) =
      (((inputs.map (fun p => run_single_test mh backend p.1 p.2)).countP
          finalUtteranceClosed : ℚ) /
        (inputs.map (fun p => run_single_test mh backend p.1 p.2)).length) * 100 ∧
    (∀ g : TestResult → Bool,
      hand_off_rate ((inputs.map (fun p => run_single_test mh backend p.1 p.2)).map
        (fun r => { r with success := g r })) =
      hand_off_rate (inputs.map (fun p => run_single_test mh backend p.1 p.2))) := by
  have hcount :
      (inputs.map (fun p => run_single_test mh backend p.1 p.2)).countP
        (fun r => r.properly_closed) =
      (inputs.map (fun p => run_single_test mh backend p.1 p.2)).countP
        finalUtteranceClosed := by
    apply List.countP_congr
    intro r hr
    obtain ⟨p, hp, hpr⟩ := List.mem_map.mp hr
    rw [← hpr]
    rw [run_single_test_closed_eq]
  have hlen :
      0 < (inputs.map (fun p => run_single_test mh backend p.1 p.2)).length := by
    rw [List.length_map]
    exact List.length_pos.mpr hne
  constructor
  · rw [hand_off_rate, if_pos hlen, hcount]
  · intro g
    rw [hand_off_rate, hand_off_rate]
    rw [if_pos (by rw [List.length_map]; exact hlen), if_pos hlen]
    rw [List.length_map, List.countP_map]
    rfl

/-- Witness for C7 at a one-element collection with a closing final
utterance produced by the apology-free preset path. -/
theorem hand_off_rate_spec_witness :
    hand_off_rate ([(cfgDemo, ["Au revoir."])].map
      (fun p => run_single_test 10 failingBackend p.1 p.2)) =
      ((([(cfgDemo, ["Au revoir."])].map
          (fun p => run_single_test 10 failingBackend p.1 p.2)).countP
          finalUtteranceClosed : ℚ) /
        ([(cfgDemo, ["Au revoir."])].map
          (fun p => run_single_test 10 failingBackend p.1 p.2)).length) * 100 ∧
    (∀ g : TestResult → Bool,
      hand_off_rate (([(cfgDemo, ["Au revoir."])].map
        (fun p => run_single_test 10 failingBackend p.1 p.2)).map
        (fun r => { r with success := g r })) =
      hand_off_rate ([(cfgDemo, ["Au revoir."])].map
        (fun p => run_single_test 10 failingBackend p.1 p.2))) :=
  hand_off_rate_spec 10 failingBackend [(cfgDemo, ["Au revoir."])]
    (by simp)

/-- Counterexample to claim C8 as stated: a parsed configuration whose
only client record lacks the required `closing_line` loads without any
error — `load_config` checks only file existence and parses — while the
failure surfaces later, at orchestrator construction. -/
theorem load_time_validation_cex :
    load_config (some rawDemo) = Except.ok rawDemo ∧
    agentInit cfgMissing = Except.error "KeyError: closing_line" := by
  constructor
  · rfl
  · rfl

/-- Claim C8 as amended: missing required profile fields are not detected
at configuration-load time — `load_config` accepts every parsed document —
and instead fail at Session Orchestrator construction (the first use of
the profile, when the system prompt is assembled), which is still before
any `start` or `generate_response` call on that session. -/
theorem load_time_validation_amended :
    (∀ raw, load_config (some raw) = Except.ok raw) ∧
    (∀ c : ClientConfig, c.client_name = none ∨ c.closing_line = none →
      ∃ e, agentInit c = Except.error e) := by
  refine ⟨fun raw => rfl, fun c h => ?_⟩
  obtain ⟨e, he⟩ := build_system_prompt_missing c h
  refine ⟨e, ?_⟩
  rw [agentInit, he]
  rfl

/-- Witness for C8 amended at the concrete record missing its closing
line. -/
theorem load_time_validation_amended_witness :
    ∃ e, agentInit cfgMissing = Except.error e :=
  load_time_validation_amended.2 cfgMissing (Or.inr rfl)

/-- Claim C9: prompt assembly fails with an error, rather than producing
an instruction text, whenever `client_name` or `closing_line` is absent
from the profile record. -/
theorem prompt_requires_fields (c : ClientConfig)
    (h : c.client_name = none ∨ c.closing_line = none) :
    ∃ e, build_system_prompt c = Except.error e :=
  build_system_prompt_missing c h

/-- Witness for C9 at the concrete record missing its closing line. -/
theorem prompt_requires_fields_witness :
    ∃ e, build_system_prompt cfgMissing = Except.error e :=
  prompt_requires_fields cfgMissing (Or.inr rfl)

/-- Claim C10: every call to `generate_response` — preset denial,
successful generation, or apology fallback — returns normally, appends
exactly two entries to the history (the user turn, then the agent turn),
leaves every previously recorded entry and all other session fields
unchanged, and returns exactly the text of the agent turn it appended. -/
theorem respond_appends_two_turns (mh : Nat)
    (backend : String → Except String String)
    (a : FrenchDebtCollectionAgent) (msg : String) :
    ∃ r a2, generate_response mh backend a msg = Except.ok (r, a2) ∧
      a2.conversation_history =
        a.conversation_history ++ ["Client: " ++ msg, "Agent: " ++ r] ∧
      a2.client_name = a.client_name ∧ a2.tone = a.tone ∧
      a2.system_prompt = a.system_prompt := by
  obtain ⟨r, hr⟩ := generate_response_ok mh backend a msg
  exact ⟨r, _, hr, rfl, rfl, rfl, rfl⟩
